import Mathlib

/-!
Shallow embedding of the simulation-and-store core of the eco-global-aqi
repository (src/eco-plus/app.py and src/eco-plus/model_training.py), with
theorems checking the specification claims about the Classifier, the Alert
Evaluator, the Reading Generator, the History Store and the Refresh Loop.

Modelling conventions: Python floats are modelled as rationals (all
thresholds and profile constants are decimal literals); the process-wide
random source is modelled as an explicit noise record whose components are
the values produced by the successive random.uniform calls; wall-clock time
is modelled by explicit timestamp and hour arguments; the two module-level
dictionaries current_readings and reading_history are modelled as a Store
record of two lookup functions, with a missing key rendered as none.
-/

namespace EcoPlus

/-- app.py line 17: the configured city list, in source order. -/
def cities : List String :=
  ["New York", "London", "Tokyo", "Delhi", "Beijing", "Paris", "Sydney", "Dubai"]

/-- app.py line 18: history capacity per city. -/
def MAX_HISTORY : Nat := 50

/-- app.py lines 21-27: static alert thresholds, in the insertion order of
the Python dict (Python dicts iterate in insertion order). -/
def ALERT_THRESHOLDS : List (String × ℚ) :=
  [("PM2_5", 35), ("PM10", 50), ("NO2", 40), ("CO", 2), ("SO2", 20)]

/-- app.py lines 38-51: AQI category, color and description from PM2.5. -/
def predict_aqi (pm25 : ℚ) : String × String × String :=
  if pm25 ≤ 12 then
    ("Good", "#00E400", "Air quality is satisfactory")
  else if pm25 ≤ 35.4 then
    ("Moderate", "#FFFF00", "Acceptable quality")
  else if pm25 ≤ 55.4 then
    ("Unhealthy for Sensitive Groups", "#FF7E00",
      "Members of sensitive groups may experience health effects")
  else if pm25 ≤ 150.4 then
    ("Unhealthy", "#FF0000", "Everyone may experience health effects")
  else if pm25 ≤ 250.4 then
    ("Very Unhealthy", "#8F3F97",
      "Health alert: everyone may experience more serious health effects")
  else
    ("Hazardous", "#7E0023", "Health warnings of emergency conditions")

/-- Ordinal rank of the six categories, in the order of the bucket table;
used to state that assigned severity is non-decreasing in the input. -/
def severityRank (category : String) : Nat :=
  if category = "Good" then 0
  else if category = "Moderate" then 1
  else if category = "Unhealthy for Sensitive Groups" then 2
  else if category = "Unhealthy" then 3
  else if category = "Very Unhealthy" then 4
  else 5

/-- One alert entry as built in app.py lines 60-65. -/
structure Alert where
  pollutant : String
  value : ℚ
  threshold : ℚ
  severity : String
  deriving DecidableEq, Repr

/-- The eight measured fields of a reading dict (app.py lines 98-109),
before the derived AQI fields and alerts are attached. -/
structure SensorValues where
  PM2_5 : ℚ
  PM10 : ℚ
  NO2 : ℚ
  CO : ℚ
  SO2 : ℚ
  O3 : ℚ
  Temperature : ℚ
  Humidity : ℚ
  deriving DecidableEq, Repr

/-- A fully constructed reading (app.py lines 98-121): city, timestamp,
measurements, the derived AQI triple, and the attached alerts. -/
structure Reading where
  city : String
  timestamp : Nat
  values : SensorValues
  AQI_Category : String
  AQI_Color : String
  AQI_Description : String
  alerts : List Alert
  deriving DecidableEq, Repr

/-- Models the dict access reading.get(key, 0) on the numeric measurement
keys present when check_alerts runs (app.py line 58). -/
def readingGet (r : SensorValues) (key : String) : ℚ :=
  if key = "PM2_5" then r.PM2_5
  else if key = "PM10" then r.PM10
  else if key = "NO2" then r.NO2
  else if key = "CO" then r.CO
  else if key = "SO2" then r.SO2
  else if key = "O3" then r.O3
  else if key = "Temperature" then r.Temperature
  else if key = "Humidity" then r.Humidity
  else 0

/-- app.py lines 54-66: build the alert list by iterating the threshold
table in order and appending an alert whenever the value strictly exceeds
the threshold, with severity high when it exceeds 1.5 times the threshold. -/
def check_alerts (r : SensorValues) : List Alert :=
  ALERT_THRESHOLDS.foldl
    (fun alerts pt =>
      let value := readingGet r pt.1
      if pt.2 < value then
        alerts ++ [{ pollutant := pt.1, value := value, threshold := pt.2,
                     severity := if pt.2 * 1.5 < value then "high" else "medium" }]
      else alerts)
    []

/-- Per-city baseline parameters (the dict values in app.py lines 73-80). -/
structure Profile where
  pm25_base : ℚ
  variation : ℚ
  temp_base : ℚ
  humidity_base : ℚ
  deriving DecidableEq, Repr

/-- app.py lines 72-81: the static city profile table. -/
def city_profiles : List (String × Profile) :=
  [("New York", ⟨25, 10, 22, 60⟩),
   ("London", ⟨20, 8, 15, 75⟩),
   ("Tokyo", ⟨30, 12, 18, 65⟩),
   ("Delhi", ⟨80, 30, 28, 45⟩),
   ("Beijing", ⟨60, 25, 20, 50⟩),
   ("Paris", ⟨22, 9, 17, 70⟩),
   ("Sydney", ⟨18, 7, 25, 55⟩),
   ("Dubai", ⟨45, 15, 32, 40⟩)]

/-- app.py line 83: the default profile used for a city not in the table. -/
def default_profile : Profile := ⟨30, 15, 22, 60⟩

/-- app.py line 83: city_profiles.get(city, default). -/
def city_profile (city : String) : Profile :=
  ((city_profiles.find? (fun p => p.1 == city)).map Prod.snd).getD default_profile

/-- app.py lines 86-94: the time-of-day pollution multiplier from the hour
of the current wall-clock time. -/
def time_factor (hour : Nat) : ℚ :=
  if (7 ≤ hour ∧ hour ≤ 9) ∨ (16 ≤ hour ∧ hour ≤ 18) then 1.3
  else if hour ≤ 5 then 0.7
  else 1

/-- The values drawn by the successive random.uniform calls in
simulate_sensor_reading (app.py lines 96-108), one component per call. -/
structure Noise where
  pm25 : ℚ
  pm10 : ℚ
  no2 : ℚ
  co : ℚ
  so2 : ℚ
  o3 : ℚ
  temp : ℚ
  humidity : ℚ
  deriving DecidableEq, Repr

/-- The ranges of the random.uniform calls in app.py lines 96-108: every
injected noise component lies inside the interval it was drawn from. -/
def Noise.inRange (p : Profile) (n : Noise) : Prop :=
  -p.variation ≤ n.pm25 ∧ n.pm25 ≤ p.variation ∧
  -10 ≤ n.pm10 ∧ n.pm10 ≤ 10 ∧
  -8 ≤ n.no2 ∧ n.no2 ≤ 8 ∧
  -(3/10) ≤ n.co ∧ n.co ≤ 3/10 ∧
  -5 ≤ n.so2 ∧ n.so2 ≤ 5 ∧
  -15 ≤ n.o3 ∧ n.o3 ≤ 15 ∧
  -5 ≤ n.temp ∧ n.temp ≤ 5 ∧
  -15 ≤ n.humidity ∧ n.humidity ≤ 15

instance (p : Profile) (n : Noise) : Decidable (Noise.inRange p n) := by
  unfold Noise.inRange
  infer_instance

/-- Models the Python builtin round(x, 1) used in app.py lines 107-108.
Python rounds ties to even; ties do not occur in any statement below, so
the simpler round-half-up on rationals is used. -/
def round1 (x : ℚ) : ℚ := ((⌊x * 10 + 1 / 2⌋ : ℤ) : ℚ) / 10

/-- app.py lines 69-121: generate one reading for a city. The wall clock is
passed explicitly (now for the timestamp, hour for the time factor), and
the random source is passed as the noise record. PM10 is computed from the
unfloored base_pm25, exactly as in the source. -/
def simulate_sensor_reading (city : String) (now hour : Nat) (n : Noise) : Reading :=
  let profile := city_profile city
  let tf := time_factor hour
  let base_pm25 := profile.pm25_base * tf + n.pm25
  let values : SensorValues :=
    { PM2_5 := max 5 base_pm25
      PM10 := max 10 (base_pm25 * 1.5 + n.pm10)
      NO2 := max 5 (20 + n.no2 * tf)
      CO := max 0.1 (0.8 + n.co * tf)
      SO2 := max 1 (10 + n.so2)
      O3 := max 10 (35 + n.o3)
      Temperature := round1 (profile.temp_base + n.temp)
      Humidity := round1 (profile.humidity_base + n.humidity) }
  let aqi := predict_aqi values.PM2_5
  { city := city
    timestamp := now
    values := values
    AQI_Category := aqi.1
    AQI_Color := aqi.2.1
    AQI_Description := aqi.2.2
    alerts := check_alerts values }

/-- The two module-level dicts of app.py lines 15-16: current_readings and
reading_history, each keyed by city name; a key that was never written is
rendered as none. -/
structure Store where
  current : String → Option Reading
  history : String → Option (List Reading)

/-- The state at process start: both dicts empty. -/
def emptyStore : Store := { current := fun _ => none, history := fun _ => none }

/-- The history list for a city, with a missing key read as the empty list
(the effect of the initialization on app.py lines 134-135). -/
def storedHistory (s : Store) (city : String) : List Reading :=
  (s.history city).getD []

/-- app.py lines 130-138, the per-city body of the refresh loop: overwrite
the current reading, append to the history (creating it if absent), and
drop the oldest entry when the length exceeds MAX_HISTORY. -/
def commit (s : Store) (city : String) (r : Reading) : Store :=
  let appended := storedHistory s city ++ [r]
  let newHist := if MAX_HISTORY < appended.length then appended.tail else appended
  { current := fun c => if c = city then some r else s.current c
    history := fun c => if c = city then some newHist else s.history c }

/-- Commit a list of readings for one city, sequentially and in order. -/
def commitSeq (s : Store) (city : String) (rs : List Reading) : Store :=
  rs.foldl (fun acc r => commit acc city r) s

/-- app.py lines 159-164: the current-reading query; an unknown city is a
typed absence (none, rendered upstream as HTTP 404). -/
def get_city_reading (s : Store) (city : String) : Option Reading :=
  s.current city

/-- app.py lines 171-176: the history query; a known city yields the last
20 stored readings (the Python slice [-20:]), an unknown city yields none. -/
def get_city_history (s : Store) (city : String) : Option (List Reading) :=
  (s.history city).map (fun h => h.drop (h.length - 20))

/-- app.py lines 128-139: one pass of the refresh loop body over the city
list. Reading generation is modelled as fallible (Except models a Python
exception); the loop body contains no exception handler, so a raising
generation propagates and aborts the whole pass, as in the source. -/
def run_cycle (gen : String → Except String Reading) :
    List String → Store → Except String Store
  | [], s => Except.ok s
  | city :: rest, s =>
      match gen city with
      | Except.error e => Except.error e
      | Except.ok r => run_cycle gen rest (commit s city r)

namespace ModelTraining

/-- model_training.py lines 41-54: the training-script classifier, same
thresholds as the core one but returning only category and color. -/
def predict_aqi (pm25 : ℚ) : String × String :=
  if pm25 ≤ 12 then ("Good", "#00E400")
  else if pm25 ≤ 35.4 then ("Moderate", "#FFFF00")
  else if pm25 ≤ 55.4 then ("Unhealthy for Sensitive Groups", "#FF7E00")
  else if pm25 ≤ 150.4 then ("Unhealthy", "#FF0000")
  else if pm25 ≤ 250.4 then ("Very Unhealthy", "#8F3F97")
  else ("Hazardous", "#7E0023")

/-- One entry of the rules object written to models/aqi_model.json
(model_training.py lines 64-71). -/
structure Rule where
  category : String
  pm25_max : ℚ
  color : String
  description : String
  deriving DecidableEq, Repr

/-- model_training.py lines 64-71: the six rules, in document order. -/
def model_rules : List Rule :=
  [⟨"Good", 12, "#00E400", "Air quality is satisfactory"⟩,
   ⟨"Moderate", 35.4, "#FFFF00", "Acceptable quality"⟩,
   ⟨"Unhealthy for Sensitive Groups", 55.4, "#FF7E00",
     "Members of sensitive groups may experience health effects"⟩,
   ⟨"Unhealthy", 150.4, "#FF0000", "Everyone may experience health effects"⟩,
   ⟨"Very Unhealthy", 250.4, "#8F3F97",
     "Health alert: everyone may experience more serious health effects"⟩,
   ⟨"Hazardous", 500.4, "#7E0023", "Health warnings of emergency conditions"⟩]

end ModelTraining

/-- Modelled from the spec: the rule document read as a bucket table with
inclusive upper bounds, in order — the first rule whose PM2.5_max bound
admits the input decides the bucket; an input above every bound matches no
rule. -/
def findRule (pm : ℚ) : List ModelTraining.Rule → Option ModelTraining.Rule
  | [] => none
  | rule :: rest => if pm ≤ rule.pm25_max then some rule else findRule pm rest

/-- Modelled from the spec: category and color assigned by the rule
document of model_training.py, when some rule admits the input. -/
def ruleTableClassify (pm : ℚ) : Option (String × String) :=
  (findRule pm ModelTraining.model_rules).map (fun rule => (rule.category, rule.color))

/-- A minimal distinct reading used for concrete store scenarios: the
index is recorded in the timestamp and in the PM2.5 slot. -/
def mkTestReading (i : Nat) : Reading :=
  { city := "New York"
    timestamp := i
    values := { PM2_5 := i, PM10 := 0, NO2 := 0, CO := 0, SO2 := 0, O3 := 0,
                Temperature := 0, Humidity := 0 }
    AQI_Category := ""
    AQI_Color := ""
    AQI_Description := ""
    alerts := [] }

/-- Sixty sequential commits for one city, starting from the empty store. -/
def s60 : Store :=
  commitSeq emptyStore "New York" ((List.range 60).map mkTestReading)

/-- Thirty sequential commits for one city, starting from the empty store. -/
def s30 : Store :=
  commitSeq emptyStore "London" ((List.range 30).map mkTestReading)

/-- A reading whose pollutants sit exactly at their alert thresholds except
PM2.5, which is 36 (one above its threshold of 35). -/
def reading36 : SensorValues :=
  { PM2_5 := 36, PM10 := 50, NO2 := 40, CO := 2, SO2 := 20, O3 := 35,
    Temperature := 20, Humidity := 50 }

/-- Like reading36 but with PM2.5 at 53, above 1.5 times its threshold. -/
def reading53 : SensorValues :=
  { PM2_5 := 53, PM10 := 50, NO2 := 40, CO := 2, SO2 := 20, O3 := 35,
    Temperature := 20, Humidity := 50 }

/-- A generator that raises for London and succeeds for every other city,
for exercising the refresh loop under a generation failure. -/
def genFail : String → Except String Reading :=
  fun city => if city = "London" then Except.error "boom" else Except.ok (mkTestReading 0)

set_option maxRecDepth 100000

/-- The category strings of the six buckets appear in severityRank in
strictly increasing rank order; evaluating predict_aqi always lands on one
of those strings (helper for the monotonicity claim). -/
theorem severityRank_values :
    severityRank "Good" = 0 ∧ severityRank "Moderate" = 1 ∧
    severityRank "Unhealthy for Sensitive Groups" = 2 ∧
    severityRank "Unhealthy" = 3 ∧ severityRank "Very Unhealthy" = 4 ∧
    severityRank "Hazardous" = 5 := by
  refine ⟨by decide, by decide, by decide, by decide, by decide, by decide⟩

/-- C2: the classifier is a pure total function on the six-bucket table
with inclusive upper bounds 12, 35.4, 55.4, 150.4, 250.4 and infinity: the
five sample inputs evaluate to the specified triples, and the severity rank
assigned is monotone non-decreasing in the input. -/
theorem predict_aqi_table_and_mono :
    predict_aqi 12 = ("Good", "#00E400", "Air quality is satisfactory") ∧
    predict_aqi 12.1 = ("Moderate", "#FFFF00", "Acceptable quality") ∧
    predict_aqi 35.4 = ("Moderate", "#FFFF00", "Acceptable quality") ∧
    (predict_aqi 35.5).1 = "Unhealthy for Sensitive Groups" ∧
    predict_aqi 500 = ("Hazardous", "#7E0023", "Health warnings of emergency conditions") ∧
    ∀ x y : ℚ, x ≤ y → severityRank (predict_aqi x).1 ≤ severityRank (predict_aqi y).1 := by
  refine ⟨by norm_num [predict_aqi], by norm_num [predict_aqi], by norm_num [predict_aqi],
    by norm_num [predict_aqi], by norm_num [predict_aqi], ?_⟩
  intro x y h
  unfold predict_aqi
  split_ifs <;> first | decide | linarith

/-- Witness for C2: the monotonicity part applied at the pair 10 and 100. -/
theorem predict_aqi_mono_witness :
    (10 : ℚ) ≤ 100 ∧
      severityRank (predict_aqi 10).1 ≤ severityRank (predict_aqi 100).1 :=
  ⟨by norm_num, predict_aqi_table_and_mono.2.2.2.2.2 10 100 (by norm_num)⟩

/-- Membership characterization of the alert-building fold of check_alerts:
an alert is in the fold result exactly when it was in the accumulator or it
is the alert built from some threshold entry whose value strictly exceeds
the threshold. -/
theorem alert_foldl_mem (r : SensorValues) (l : List (String × ℚ)) (acc : List Alert)
    (a : Alert) :
    (a ∈ l.foldl
        (fun alerts pt =>
          let value := readingGet r pt.1
          if pt.2 < value then
            alerts ++ [{ pollutant := pt.1, value := value, threshold := pt.2,
                         severity := if pt.2 * 1.5 < value then "high" else "medium" }]
          else alerts)
        acc) ↔
      a ∈ acc ∨ ∃ pt, pt ∈ l ∧ pt.2 < readingGet r pt.1 ∧
        a = { pollutant := pt.1, value := readingGet r pt.1, threshold := pt.2,
              severity := if pt.2 * 1.5 < readingGet r pt.1 then "high" else "medium" } := by
  induction l generalizing acc with
  | nil => simp
  | cons pt l ih =>
      simp only [List.foldl_cons]
      rw [ih]
      by_cases hc : pt.2 < readingGet r pt.1
      · simp only [hc, if_pos, List.mem_append, List.mem_singleton, List.mem_cons,
          List.not_mem_nil, or_false]
        constructor
        · rintro ((ha | ha) | ⟨q, hq, hlt, rfl⟩)
          · exact Or.inl ha
          · exact Or.inr ⟨pt, Or.inl rfl, hc, ha⟩
          · exact Or.inr ⟨q, Or.inr hq, hlt, rfl⟩
        · rintro (ha | ⟨q, (rfl | hq), hlt, rfl⟩)
          · exact Or.inl (Or.inl ha)
          · exact Or.inl (Or.inr rfl)
          · exact Or.inr ⟨q, hq, hlt, rfl⟩
      · simp only [hc, if_neg, List.mem_cons]
        constructor
        · rintro (ha | ⟨q, hq, hlt, rfl⟩)
          · exact Or.inl ha
          · exact Or.inr ⟨q, Or.inr hq, hlt, rfl⟩
        · rintro (ha | ⟨q, (rfl | hq), hlt, rfl⟩)
          · exact Or.inl ha
          · exact absurd hlt hc
          · exact Or.inr ⟨q, hq, hlt, rfl⟩

/-- C4: the alert evaluator emits an alert for a monitored pollutant
exactly when the value strictly exceeds its threshold (a value equal to the
threshold emits nothing, by the soundness part), with severity high exactly
when the value exceeds 1.5 times the threshold; the reading with PM2.5 at
36 and every other pollutant exactly at threshold yields exactly one
medium alert, and with PM2.5 at 53 exactly one high alert. -/
theorem check_alerts_spec :
    (∀ r : SensorValues, ∀ a ∈ check_alerts r,
        (a.pollutant, a.threshold) ∈ ALERT_THRESHOLDS ∧
        a.value = readingGet r a.pollutant ∧
        a.threshold < a.value ∧
        a.severity = if a.threshold * 1.5 < a.value then "high" else "medium") ∧
    (∀ (r : SensorValues) (p : String) (t : ℚ), (p, t) ∈ ALERT_THRESHOLDS →
        t < readingGet r p →
        ∃ a ∈ check_alerts r, a.pollutant = p ∧ a.value = readingGet r p) ∧
    check_alerts reading36 = [⟨"PM2_5", 36, 35, "medium"⟩] ∧
    check_alerts reading53 = [⟨"PM2_5", 53, 35, "high"⟩] := by
  refine ⟨?_, ?_, ?_, ?_⟩
  · intro r a ha
    rw [check_alerts, alert_foldl_mem] at ha
    rcases ha with ha | ⟨pt, hmem, hlt, rfl⟩
    · simp at ha
    · exact ⟨hmem, rfl, hlt, rfl⟩
  · intro r p t hmem hlt
    refine ⟨{ pollutant := p, value := readingGet r p, threshold := t,
              severity := if t * 1.5 < readingGet r p then "high" else "medium" }, ?_, rfl, rfl⟩
    rw [check_alerts, alert_foldl_mem]
    exact Or.inr ⟨(p, t), hmem, hlt, rfl⟩
  · simp [check_alerts, ALERT_THRESHOLDS, readingGet, reading36]
    norm_num
  · simp [check_alerts, ALERT_THRESHOLDS, readingGet, reading53]
    norm_num

/-- Witness for C4: the completeness part applied to the PM2.5 threshold
entry and the reading with PM2.5 at 53. -/
theorem check_alerts_spec_witness :
    ("PM2_5", (35 : ℚ)) ∈ ALERT_THRESHOLDS ∧
    (35 : ℚ) < readingGet reading53 "PM2_5" ∧
    ∃ a ∈ check_alerts reading53, a.pollutant = "PM2_5" ∧
      a.value = readingGet reading53 "PM2_5" :=
  ⟨by simp [ALERT_THRESHOLDS], by simp [readingGet, reading53]; norm_num,
    check_alerts_spec.2.1 reading53 "PM2_5" 35 (by simp [ALERT_THRESHOLDS])
      (by simp [readingGet, reading53]; norm_num)⟩

/-- C8: a current-reading query for a city the store has never seen yields
the typed absence none; immediately after a commit the query for that city
yields exactly the committed reading, and queries for other cities are
unaffected. -/
theorem store_current_lookup :
    (∀ city, get_city_reading emptyStore city = none) ∧
    (∀ (s : Store) (city : String) (r : Reading),
        get_city_reading (commit s city r) city = some r) ∧
    (∀ (s : Store) (city c : String) (r : Reading), c ≠ city →
        get_city_reading (commit s city r) c = get_city_reading s c) := by
  refine ⟨fun city => rfl, fun s city r => by simp [get_city_reading, commit], ?_⟩
  intro s city c r hne
  simp [get_city_reading, commit, hne]

/-- Witness for C8: after committing for London, a query for Tokyo is the
same as on the untouched store (and the empty store yields none). -/
theorem store_current_lookup_witness :
    "Tokyo" ≠ "London" ∧
    get_city_reading (commit emptyStore "London" (mkTestReading 0)) "Tokyo" =
      get_city_reading emptyStore "Tokyo" :=
  ⟨by decide, store_current_lookup.2.2 emptyStore "London" "Tokyo" (mkTestReading 0) (by decide)⟩

/-- C9: for every city (known or unknown) and every injected time and noise,
the generated reading carries exactly the classifier output applied to its
own stored PM2.5 value, attached at construction. -/
theorem reading_enriched_by_classifier (city : String) (now hour : Nat) (n : Noise) :
    (simulate_sensor_reading city now hour n).AQI_Category =
        (predict_aqi (simulate_sensor_reading city now hour n).values.PM2_5).1 ∧
    (simulate_sensor_reading city now hour n).AQI_Color =
        (predict_aqi (simulate_sensor_reading city now hour n).values.PM2_5).2.1 ∧
    (simulate_sensor_reading city now hour n).AQI_Description =
        (predict_aqi (simulate_sensor_reading city now hour n).values.PM2_5).2.2 :=
  ⟨rfl, rfl, rfl⟩

/-- C10: immediately after any commit for a city, the current slot and the
last element of that city's history are both the committed reading. -/
theorem commit_current_eq_last (s : Store) (city : String) (r : Reading) :
    (commit s city r).current city = some r ∧
    (storedHistory (commit s city r) city).getLast? = some r := by
  constructor
  · simp [commit]
  · simp only [commit, storedHistory, ite_true, Option.getD_some]
    split_ifs with hlen
    · rcases h0 : (s.history city).getD [] with _ | ⟨a, t⟩
      · rw [h0] at hlen
        simp [MAX_HISTORY] at hlen
      · simp only [List.cons_append, List.tail_cons]
        exact List.getLast?_concat _
    · exact List.getLast?_concat _

/-- One commit changes the history length to the previous length plus one,
capped: when the appended length exceeds MAX_HISTORY the oldest entry is
dropped again. -/
theorem commit_storedHistory_len (s : Store) (city : String) (r : Reading) :
    (storedHistory (commit s city r) city).length =
      if MAX_HISTORY < (storedHistory s city).length + 1 then
        (storedHistory s city).length
      else (storedHistory s city).length + 1 := by
  simp only [commit, storedHistory, ite_true, Option.getD_some, List.length_append,
    List.length_cons, List.length_nil]
  split_ifs with hlen
  · rcases h0 : (s.history city).getD [] with _ | ⟨a, t⟩
    · rw [h0] at hlen
      simp [MAX_HISTORY] at hlen
    · simp
  · simp

/-- Sequential commits preserve the history bound of 50. -/
theorem commitSeq_storedHistory_le (rs : List Reading) (s : Store) (city : String)
    (hle : (storedHistory s city).length ≤ 50) :
    (storedHistory (commitSeq s city rs) city).length ≤ 50 := by
  induction rs generalizing s with
  | nil => simpa [commitSeq] using hle
  | cons r rs ih =>
      have hstep := commit_storedHistory_len s city r
      have hle2 : (storedHistory (commit s city r) city).length ≤ 50 := by
        rw [hstep]
        split_ifs with h
        · exact hle
        · simp [MAX_HISTORY] at h
          omega
      simpa [commitSeq, List.foldl_cons] using ih (commit s city r) hle2

/-- C1 amended: any commit sequence from the empty store keeps a city's
history at 50 entries or fewer; after 60 sequential commits the store
retains exactly the most recent 50 in commit order (witnessed by the PM2.5
stamps 10..59, oldest-first), while the history query returns only the most
recent 20 of them (stamps 40..59) — not the 50 the claim expected. -/
theorem history_cap_and_retention :
    (∀ (city : String) (rs : List Reading),
        (storedHistory (commitSeq emptyStore city rs) city).length ≤ 50) ∧
    (storedHistory s60 "New York").length = 50 ∧
    (storedHistory s60 "New York").map (fun r => r.values.PM2_5)
        = ((List.range 60).drop 10).map (fun i => (i : ℚ)) ∧
    (get_city_history s60 "New York").map (fun l => l.map (fun r => r.values.PM2_5))
        = some (((List.range 60).drop 40).map (fun i => (i : ℚ))) :=
  ⟨fun city rs => commitSeq_storedHistory_le rs emptyStore city
      (by simp [storedHistory, emptyStore]),
    by decide, by decide, by decide⟩

/-- C1 counterexample: after 60 sequential commits for one city the history
query returns 20 entries, not the 50 the claim states. -/
theorem history_query_returns_20_of_60 :
    (get_city_history s60 "New York").map List.length = some 20 ∧ (20 : Nat) ≠ 50 :=
  ⟨by decide, by decide⟩

/-- C6 amended: for every known city the history query returns the most
recent 20 stored readings, oldest-first (all of them when fewer than 20
exist): the result is a suffix of the stored history of length
min 20 (history length); no requested limit is consulted. -/
theorem history_query_last20 (s : Store) (city : String) (h : List Reading)
    (hs : s.history city = some h) :
    get_city_history s city = some (h.drop (h.length - 20)) ∧
    (h.drop (h.length - 20)).length = min 20 h.length ∧
    h.drop (h.length - 20) <:+ h := by
  refine ⟨by simp [get_city_history, hs], ?_, List.drop_suffix _ _⟩
  rw [List.length_drop]
  omega

/-- Witness for C6 amended: applied to the store holding 30 readings for
London. -/
theorem history_query_last20_witness :
    s30.history "London" = some ((List.range 30).map mkTestReading) ∧
    get_city_history s30 "London" =
      some (((List.range 30).map mkTestReading).drop
        (((List.range 30).map mkTestReading).length - 20)) :=
  ⟨by decide, (history_query_last20 s30 "London" _ (by decide)).1⟩

/-- C6 counterexample: with 30 readings committed for London the history
query returns 20 entries — neither the 5 most recent for a requested limit
of 5 nor all 30 for a requested limit of 1000 — so the query does not honor
a requested limit. -/
theorem history_query_ignores_limit :
    (get_city_history s30 "London").map List.length = some 20 ∧
    (20 : Nat) ≠ 5 ∧ (20 : Nat) ≠ 30 :=
  ⟨by decide, by decide, by decide⟩

/-- C5 counterexample: with generation failing for London (the second
configured city), one pass of the refresh loop over the configured cities
aborts with the error — the six later cities are never generated or
committed, contradicting the claim that the loop skips the failing city
and still commits all remaining ones. -/
theorem run_cycle_aborts_on_failure :
    run_cycle genFail cities emptyStore = Except.error "boom" := rfl

/-- C5 amended: the loop body has no exception handler, so when generation
raises for a city the whole pass aborts with that error whatever cities
remain after it; no city later in the list is committed and the loop body
never resumes with a partially updated store. -/
theorem run_cycle_error_propagates (gen : String → Except String Reading)
    (city : String) (rest : List String) (s : Store) (e : String)
    (h : gen city = Except.error e) :
    run_cycle gen (city :: rest) s = Except.error e := by
  simp [run_cycle, h]

/-- Witness for C5 amended: applied to the failing generator at London. -/
theorem run_cycle_error_witness :
    genFail "London" = Except.error "boom" ∧
    run_cycle genFail ["London", "Tokyo"] emptyStore = Except.error "boom" :=
  ⟨rfl, run_cycle_error_propagates genFail "London" ["Tokyo"] emptyStore "boom" rfl⟩

/-- The time-of-day multiplier never drops below 0.7. -/
theorem time_factor_ge (hour : Nat) : (7/10 : ℚ) ≤ time_factor hour := by
  unfold time_factor
  split_ifs <;> norm_num

/-- Every profile the lookup can produce (the eight configured cities and
the default) has a nonnegative baseline, and its worst-case particulate
base — baseline times 0.7 minus the variation amplitude — is at least 5.6. -/
theorem city_profile_base_bound (city : String) :
    0 ≤ (city_profile city).pm25_base ∧
    (28/5 : ℚ) ≤ (city_profile city).pm25_base * (7/10) - (city_profile city).variation := by
  unfold city_profile
  rcases hfind : city_profiles.find? (fun p => p.1 == city) with _ | pr
  · simp only [hfind, Option.map_none, Option.getD_none, default_profile]
    norm_num
  · have hmem : pr ∈ city_profiles := List.mem_of_find?_eq_some hfind
    fin_cases hmem <;> simp only [hfind, Option.map_some, Option.getD_some] <;> norm_num

/-- For in-range noise the raw particulate base is never below 5, so the
floor in the PM2.5 slot never binds. -/
theorem base_pm25_ge_5 (city : String) (hour : Nat) (n : Noise)
    (hn : Noise.inRange (city_profile city) n) :
    (5 : ℚ) ≤ (city_profile city).pm25_base * time_factor hour + n.pm25 := by
  obtain ⟨h1, -⟩ := hn
  obtain ⟨hb0, hbound⟩ := city_profile_base_bound city
  have htf := time_factor_ge hour
  nlinarith [mul_le_mul_of_nonneg_left htf hb0]

/-- C3: for every city profile reachable from the lookup and every in-range
injected noise, the generated PM10 equals the stored (floored) PM2.5 value
times 1.5 plus the PM10 noise, floored at 10 — the source computes PM10
from the unfloored base, but for every reachable profile the floor at 5
never binds, so the two coincide. -/
theorem pm10_from_floored_fine (city : String) (now hour : Nat) (n : Noise)
    (hn : Noise.inRange (city_profile city) n) :
    (simulate_sensor_reading city now hour n).values.PM10 =
      max 10 ((simulate_sensor_reading city now hour n).values.PM2_5 * 1.5 + n.pm10) := by
  have h5 := base_pm25_ge_5 city hour n hn
  simp only [simulate_sensor_reading]
  rw [max_eq_right h5]

/-- Witness for C3: applied to Paris at noon with all-zero noise. -/
theorem pm10_from_floored_fine_witness :
    Noise.inRange (city_profile "Paris") ⟨0, 0, 0, 0, 0, 0, 0, 0⟩ ∧
    (simulate_sensor_reading "Paris" 0 12 ⟨0, 0, 0, 0, 0, 0, 0, 0⟩).values.PM10 =
      max 10 ((simulate_sensor_reading "Paris" 0 12 ⟨0, 0, 0, 0, 0, 0, 0, 0⟩).values.PM2_5
        * 1.5 + (0 : ℚ)) :=
  ⟨by simp [Noise.inRange, city_profile, city_profiles]; norm_num,
    pm10_from_floored_fine "Paris" 0 12 ⟨0, 0, 0, 0, 0, 0, 0, 0⟩
      (by simp [Noise.inRange, city_profile, city_profiles]; norm_num)⟩

/-- C7 counterexample: at PM2.5 = 501 the rule document assigns no bucket —
every inclusive upper bound, the last being 500.4, is exceeded — while both
classifier functions return Hazardous, so classifier and document are not
in sync above 500.4. -/
theorem rule_table_gap_above_500 :
    ruleTableClassify 501 = none ∧
    (predict_aqi 501).1 = "Hazardous" ∧
    (ModelTraining.predict_aqi 501).1 = "Hazardous" := by
  refine ⟨?_, by norm_num [predict_aqi], by norm_num [ModelTraining.predict_aqi]⟩
  simp only [ruleTableClassify, ModelTraining.model_rules, findRule]
  norm_num

/-- C7 amended: the core classifier and the training-script classifier
agree on category and color for every input, and both agree with the rule
document for every input up to 500.4; above 500.4 the document assigns no
bucket while the classifiers still return Hazardous. -/
theorem classifier_matches_rule_table :
    (∀ pm : ℚ, ((predict_aqi pm).1, (predict_aqi pm).2.1) = ModelTraining.predict_aqi pm) ∧
    (∀ pm : ℚ, pm ≤ 500.4 →
        ruleTableClassify pm = some ((predict_aqi pm).1, (predict_aqi pm).2.1)) := by
  constructor
  · intro pm
    unfold predict_aqi ModelTraining.predict_aqi
    split_ifs <;> rfl
  · intro pm hle
    simp only [ruleTableClassify, ModelTraining.model_rules, findRule, predict_aqi]
    split_ifs <;> rfl

/-- Witness for C7 amended: applied at PM2.5 = 300. -/
theorem classifier_matches_rule_table_witness :
    (300 : ℚ) ≤ 500.4 ∧
    ruleTableClassify 300 = some ((predict_aqi 300).1, (predict_aqi 300).2.1) :=
  ⟨by norm_num, classifier_matches_rule_table.2 300 (by norm_num)⟩

end EcoPlus
